import Mathlib

/-!
Shallow embedding of the flood anticipatory-action verification pipeline
(`src/floods/flood_aa_preseason.py`): event resolution, ensemble
aggregation, threshold sweep, lead-time bucketing, contingency metrics
and trigger selection, with theorems settling the spec claims.
-/

namespace FloodAA

/-! ## Section 2 of the script: event resolution -/

/-- Embeds `observed_event = observed_values > obs_threshold` (line 112):
a strict comparison of the observed value against the observed-scale
severity threshold. -/
def observedEvent (v thr : ℚ) : Bool := decide (thr < v)

/-- Embeds `forecast_event = forecast_data.values > sim_threshold`
(line 113): a strict comparison of the ensemble-member forecast value
against the forecast-scale severity threshold. -/
def forecastEvent (f thr : ℚ) : Bool := decide (thr < f)

/-- One row of the observed table restricted to one station column:
the date and the station's value, `none` standing for NaN. -/
abbrev ObsRow : Type := ℤ × Option ℚ

/-- Embeds `.iloc[-1]` on a dataframe: the last row, raising
IndexError when the frame is empty. -/
def ilocLast (l : List ObsRow) : Except String ObsRow :=
  match l.getLast? with
  | none => Except.error "IndexError"
  | some r => Except.ok r

/-- Embeds line 83,
`observed_data[observed_data["date"] == forecast_end_date].iloc[-1]`:
filter the observed rows to those whose date equals the forecasted
date, then take the last row. -/
def observedPeriod (rows : List ObsRow) (d : ℤ) : Except String ObsRow :=
  ilocLast (rows.filter (fun r => decide (r.1 = d)))

/-- Embeds the per-(forecast file, lead time) resolution step for one
station (lines 83-128): fetch the observed row at the forecasted date
(raising IndexError when no row matches); if the station's value there
is NaN, `continue` — produce no event records; otherwise emit one
(observed_event, forecast_event) pair per ensemble member. -/
def resolveEvents (rows : List ObsRow) (d : ℤ) (obsThr simThr : ℚ)
    (forecasts : List ℚ) : Except String (List (Bool × Bool)) :=
  match observedPeriod rows d with
  | Except.error e => Except.error e
  | Except.ok (_, none) => Except.ok []
  | Except.ok (_, some v) =>
      Except.ok (forecasts.map (fun f => (observedEvent v obsThr, forecastEvent f simThr)))

/-! ## Section 3 of the script: ensemble aggregation -/

/-- Numeric reading of a boolean cell, as pandas sums booleans. -/
def boolToRat (b : Bool) : ℚ := if b then 1 else 0

/-- Embeds `pivot_events_df.columns[5:16]` (line 145) applied to one
pivoted row.  After `reset_index` the six pivot-index columns
(`forecast file`, `lead time`, `station name`, `forecasted date`,
`threshold`, `observed event`) occupy positions 0..5 and the eleven
ensemble-member columns (sorted lexicographically, so `dis24_9` last)
occupy positions 6..16; the slice 5:16 therefore yields the
`observed event` cell followed by the first ten member cells, dropping
the last member column. -/
def ensembleColumnsSlice (obs : Bool) (memberVals : List ℚ) : List ℚ :=
  (boolToRat obs :: memberVals).take 11

/-- Embeds line 148:
`pivot_events_df[ensemble_member_columns].sum(axis=1) / 11` —
the value the code stores as "probability of detection" for a pivoted
row with observed-event flag `obs` and member forecast-event flags
`flags` (given in pivoted column order). -/
def podCode (obs : Bool) (flags : List Bool) : ℚ :=
  (ensembleColumnsSlice obs (flags.map boolToRat)).sum / 11

/-- The spec's formula for the same row:
`probability_of_detection = count(forecast_event == true) / E` with
E = 11, stated for comparison with `podCode`. -/
def specProbabilityOfDetection (flags : List Bool) : ℚ :=
  (flags.countP (fun b => b) : ℚ) / 11

/-- Embeds `(pivot_events_df['probability of detection'] >= threshold)`
(line 159): the swept binary decision for one candidate threshold. -/
def eventOccurrence (pod thr : ℚ) : Bool := decide (thr ≤ pod)

/-! ## Lead-time bucketing (lines 171-175) -/

/-- Embeds `pd.cut(metrics_df['lead time'], bins=bins, labels=labels,
right=False)` with `bins = [0,5,10,15,20,25,30,35,40,46,inf]` and
`labels = ['0-5','6-10','11-15','16-20','21-25','26-30','31-35',
'36-40','41-46','0-46']`: left-inclusive half-open intervals, the i-th
label naming the interval [bins i, bins (i+1)). -/
def leadTimeCategory (t : ℕ) : String :=
  if t < 5 then "0-5"
  else if t < 10 then "6-10"
  else if t < 15 then "11-15"
  else if t < 20 then "16-20"
  else if t < 25 then "21-25"
  else if t < 30 then "26-30"
  else if t < 35 then "31-35"
  else if t < 40 then "36-40"
  else if t < 46 then "41-46"
  else "0-46"

/-- The nine non-aggregate bucket labels of the reference
configuration. -/
def nonAggregateLabels : List String :=
  ["0-5", "6-10", "11-15", "16-20", "21-25", "26-30", "31-35", "36-40", "41-46"]

/-! ## Contingency counts and skill metrics (`calculate_metrics`, lines 184-232) -/

/-- A cell of a column that `calculate_metrics` scans.  The genuine
trigger-threshold columns hold the 0/1 integers produced by
`.astype(int)` (modelled as `bit`); the trailing `lead time category`
column, which the positional slice `df.columns[7:]` also reaches,
holds categorical strings (modelled as `text`). -/
inductive Cell : Type
  | bit (b : Bool)
  | text (s : String)
deriving DecidableEq

/-- Embeds pandas equality of a cell against the integer literals 0/1
used in lines 197-200: a 0/1 integer cell compares by value, a
categorical string never equals an integer. -/
def Cell.eqNat : Cell → ℕ → Bool
  | Cell.bit b, n => (if b then 1 else 0) == n
  | Cell.text _, _ => false

/-- Whether the cell is a 0/1 integer cell. -/
def Cell.isBit : Cell → Bool
  | Cell.bit _ => true
  | Cell.text _ => false

/-- Whether the cell is a categorical string cell. -/
def Cell.isText : Cell → Bool
  | Cell.bit _ => false
  | Cell.text _ => true

/-- A skill-group column paired with the group's observed-event flags:
each row is (observed event, cell of the scanned column). -/
abbrev GroupRows : Type := List (Bool × Cell)

/-- Embeds line 197: `((df['observed event'] == 1) & (df[column] == 1)).sum()`. -/
def hits (rows : GroupRows) : ℕ :=
  rows.countP (fun r => r.1 && r.2.eqNat 1)

/-- Embeds line 198: `((df['observed event'] == 0) & (df[column] == 1)).sum()`. -/
def falseAlarms (rows : GroupRows) : ℕ :=
  rows.countP (fun r => !r.1 && r.2.eqNat 1)

/-- Embeds line 199: `((df['observed event'] == 1) & (df[column] == 0)).sum()`. -/
def misses (rows : GroupRows) : ℕ :=
  rows.countP (fun r => r.1 && r.2.eqNat 0)

/-- Embeds line 200: `((df['observed event'] == 0) & (df[column] == 0)).sum()`. -/
def correctRejections (rows : GroupRows) : ℕ :=
  rows.countP (fun r => !r.1 && r.2.eqNat 0)

/-- Embeds lines 203-204: `hits / (hits + misses)` guarded to 0 when
the denominator is 0. -/
def hitRate (h m : ℕ) : ℚ :=
  if h + m > 0 then (h : ℚ) / ((h : ℚ) + (m : ℚ)) else 0

/-- Embeds lines 205-206: `false_alarms / (hits + false_alarms)`
guarded to 0 when the denominator is 0. -/
def falseAlarmRate (h fa : ℕ) : ℚ :=
  if h + fa > 0 then (fa : ℚ) / ((h : ℚ) + (fa : ℚ)) else 0

/-- Embeds line 207: `hits / (hits + false_alarms + misses)` guarded
to 0 when the denominator is 0. -/
def csi (h fa m : ℕ) : ℚ :=
  if h + fa + m > 0 then (h : ℚ) / ((h : ℚ) + (fa : ℚ) + (m : ℚ)) else 0

/-- Embeds lines 208-209:
`(hits*correct_rejections - false_alarms*misses) /
((hits+misses)*(false_alarms+correct_rejections))` guarded to 0 when
the denominator is 0. -/
def pss (h fa m cr : ℕ) : ℚ :=
  if (h + m) * (fa + cr) > 0 then
    (((h * cr : ℕ) : ℚ) - ((fa * m : ℕ) : ℚ)) / (((h + m) * (fa + cr) : ℕ) : ℚ)
  else 0

/-- Embeds line 210: `hits / total_forecasted_events` guarded to 0
when the denominator is 0. -/
def precision (h fa : ℕ) : ℚ :=
  if h + fa > 0 then (h : ℚ) / ((h : ℚ) + (fa : ℚ)) else 0

/-- Embeds line 212: `2 * (precision * recall) / (precision + recall)`
with `recall = hit_rate`, guarded to 0 when the denominator is 0. -/
def f1 (h fa m : ℕ) : ℚ :=
  let p := precision h fa
  let r := hitRate h m
  if p + r > 0 then 2 * (p * r) / (p + r) else 0

/-! ## Trigger selection (lines 247-274) -/

/-- One column of a group's metrics table as the selector reads it:
the column label, its candidate probability threshold, and the three
metric rows consulted at lines 251-255. -/
structure MetricsCol : Type where
  label : String
  thr : ℚ
  hr : ℚ
  far : ℚ
  csiVal : ℚ
deriving DecidableEq

/-- Embeds the column mask of line 251:
`(df.loc['hit rates'] >= 0.5) & (df.loc['false alarm rates'] <= 0.5)`. -/
def feasibleB (c : MetricsCol) : Bool :=
  decide ((1 : ℚ) / 2 ≤ c.hr) && decide (c.far ≤ (1 : ℚ) / 2)

/-- Embeds `df.loc['csi', filtered_columns].idxmax()` (line 255):
the first column attaining the maximal csi value, in column order. -/
def idxmaxCsi : List MetricsCol → Option MetricsCol
  | [] => none
  | c :: cs =>
      match idxmaxCsi cs with
      | none => some c
      | some m => if c.csiVal < m.csiVal then some m else some c

/-- Embeds lines 251-259 for one group: restrict the columns to those
passing the feasibility mask, then take the first csi-maximal column;
`None` when no column passes. -/
def bestTrigger (cols : List MetricsCol) : Option MetricsCol :=
  idxmaxCsi (cols.filter feasibleB)

/-- A grouping key (station name, lead time category, severity). -/
abbrev GroupKey : Type := String × String × String

/-- Embeds lines 262-274: one output row per group of `best_trigger`,
carrying the key and the selected trigger (possibly `None`). -/
def resultsList (groups : List (GroupKey × List MetricsCol)) :
    List (GroupKey × Option MetricsCol) :=
  groups.map (fun g => (g.1, bestTrigger g.2))

/-- The metrics column `calculate_metrics` derives from one scanned
column of a group, in the shape the selector reads (label, candidate
threshold, hit rate, false alarm rate, csi). -/
def colMetricsOf (label : String) (thr : ℚ) (rows : GroupRows) : MetricsCol :=
  { label := label
    thr := thr
    hr := hitRate (hits rows) (misses rows)
    far := falseAlarmRate (hits rows) (falseAlarms rows)
    csiVal := csi (hits rows) (falseAlarms rows) (misses rows) }

/-! ## Concrete inputs used by the witnesses -/

/-- A metrics column failing the feasibility mask (hit rate 0). -/
def wcolA : MetricsCol := { label := "threshold_0.01", thr := 1/100, hr := 0, far := 0, csiVal := 0 }

/-- A feasible metrics column with csi 1. -/
def wcolB : MetricsCol := { label := "threshold_0.02", thr := 2/100, hr := 1, far := 0, csiVal := 1 }

/-- A second feasible metrics column tied with `wcolB` on csi. -/
def wcolC : MetricsCol := { label := "threshold_0.03", thr := 3/100, hr := 1, far := 0, csiVal := 1 }

/-- Group rows whose scanned column holds categorical strings, as the
`lead time category` column does. -/
def wrows : GroupRows := [(true, Cell.text "0-5"), (false, Cell.text "0-5")]

/-- Group rows whose scanned column holds 0/1 integers, as the
trigger-threshold columns do. -/
def brows : GroupRows := [(true, Cell.bit true), (false, Cell.bit false), (true, Cell.bit false)]

/-- Group rows with no observed positive event. -/
def zrows : GroupRows := [(false, Cell.bit true), (false, Cell.bit false)]

/-! ## Helper lemmas about the selector -/

/-- `idxmaxCsi` returns `none` only on the empty column list. -/
theorem idxmaxCsi_eq_none {l : List MetricsCol} (h : idxmaxCsi l = none) : l = [] := by
  cases l with
  | nil => rfl
  | cons c cs =>
    rw [idxmaxCsi] at h
    cases hcs : idxmaxCsi cs with
    | none => rw [hcs] at h; simp at h
    | some m =>
      rw [hcs] at h
      replace h : (if c.csiVal < m.csiVal then some m else some c) = none := h
      split at h <;> simp at h

/-- The column returned by `idxmaxCsi` is one of the scanned columns. -/
theorem idxmaxCsi_mem {l : List MetricsCol} {m : MetricsCol} (h : idxmaxCsi l = some m) : m ∈ l := by
  induction l generalizing m with
  | nil => simp [idxmaxCsi] at h
  | cons c cs ih =>
    rw [idxmaxCsi] at h
    cases hcs : idxmaxCsi cs with
    | none => rw [hcs] at h; simp at h; simp [h]
    | some m' =>
      rw [hcs] at h
      replace h : (if c.csiVal < m'.csiVal then some m' else some c) = some m := h
      by_cases hlt : c.csiVal < m'.csiVal
      · rw [if_pos hlt] at h
        simp at h; subst h
        exact List.mem_cons_of_mem c (ih hcs)
      · rw [if_neg hlt] at h
        simp at h; simp [h]

/-- The column returned by `idxmaxCsi` attains the maximal csi value. -/
theorem idxmaxCsi_le {l : List MetricsCol} {m : MetricsCol} (h : idxmaxCsi l = some m) :
    ∀ x ∈ l, x.csiVal ≤ m.csiVal := by
  induction l generalizing m with
  | nil => simp [idxmaxCsi] at h
  | cons c cs ih =>
    rw [idxmaxCsi] at h
    cases hcs : idxmaxCsi cs with
    | none =>
      rw [hcs] at h; simp at h; subst h
      have hnil : cs = [] := idxmaxCsi_eq_none hcs
      subst hnil; simp
    | some m' =>
      rw [hcs] at h
      replace h : (if c.csiVal < m'.csiVal then some m' else some c) = some m := h
      by_cases hlt : c.csiVal < m'.csiVal
      · rw [if_pos hlt] at h; simp at h; subst h
        intro x hx
        rcases List.mem_cons.mp hx with rfl | hx'
        · exact le_of_lt hlt
        · exact ih hcs x hx'
      · rw [if_neg hlt] at h; simp at h; subst h
        intro x hx
        rcases List.mem_cons.mp hx with rfl | hx'
        · exact le_refl _
        · exact le_trans (ih hcs x hx') (not_lt.mp hlt)

/-- The column returned by `idxmaxCsi` is the first maximal one: every
column before it has strictly smaller csi. -/
theorem idxmaxCsi_first {l : List MetricsCol} {m : MetricsCol} (h : idxmaxCsi l = some m) :
    ∃ l₁ l₂, l = l₁ ++ m :: l₂ ∧ ∀ x ∈ l₁, x.csiVal < m.csiVal := by
  induction l generalizing m with
  | nil => simp [idxmaxCsi] at h
  | cons c cs ih =>
    rw [idxmaxCsi] at h
    cases hcs : idxmaxCsi cs with
    | none =>
      rw [hcs] at h; simp at h; subst h
      exact ⟨[], cs, rfl, by simp⟩
    | some m' =>
      rw [hcs] at h
      replace h : (if c.csiVal < m'.csiVal then some m' else some c) = some m := h
      by_cases hlt : c.csiVal < m'.csiVal
      · rw [if_pos hlt] at h; simp at h; subst h
        obtain ⟨l1, l2, heq, hless⟩ := ih hcs
        refine ⟨c :: l1, l2, by simp [heq], ?_⟩
        intro x hx
        rcases List.mem_cons.mp hx with rfl | hx'
        · exact hlt
        · exact hless x hx'
      · rw [if_neg hlt] at h; simp at h; subst h
        exact ⟨[], cs, rfl, by simp⟩

/-! ## Claim theorems -/

/-- C9: the event resolver uses strict comparisons — `observed_event`
holds iff the observed value strictly exceeds the observed-scale
threshold, `forecast_event` holds iff the forecast value strictly
exceeds the forecast-scale threshold, and a value exactly equal to its
threshold is a non-event. -/
theorem strict_threshold_comparisons (v t f s : ℚ) :
    (observedEvent v t = true ↔ t < v) ∧ (forecastEvent f s = true ↔ s < f) ∧
    observedEvent t t = false ∧ forecastEvent s s = false := by
  simp [observedEvent, forecastEvent]

/-- C8: lead-time bucket assignment is half-open and left-inclusive:
every lead time in [0,45] falls in exactly one of the nine
non-aggregate buckets (`leadTimeCategory` is a function, so the bucket
is unique), and a lead time equal to a bin's lower edge (0, 5, 10,
..., 40) belongs to the bin starting there. -/
theorem lead_time_buckets_left_inclusive :
    (∀ t : Fin 46, leadTimeCategory t.val ∈ nonAggregateLabels) ∧
    leadTimeCategory 0 = "0-5" ∧ leadTimeCategory 5 = "6-10" ∧
    leadTimeCategory 10 = "11-15" ∧ leadTimeCategory 15 = "16-20" ∧
    leadTimeCategory 20 = "21-25" ∧ leadTimeCategory 25 = "26-30" ∧
    leadTimeCategory 30 = "31-35" ∧ leadTimeCategory 35 = "36-40" ∧
    leadTimeCategory 40 = "41-46" := by decide

/-- C4: contrary to the claim, no row is ever counted in the
all-encompassing "0-46" bucket: `pd.cut` assigns each lead time exactly
one bin, and the "0-46" label is attached to the [46, inf) bin, which
no lead time in [0,45] reaches — lead time 0 lands only in "0-5". -/
theorem aggregate_bucket_unreachable :
    leadTimeCategory 0 = "0-5" ∧ (∀ t : Fin 46, leadTimeCategory t.val ≠ "0-46") ∧
    leadTimeCategory 46 = "0-46" := by decide

/-- C1: contrary to the claim, the stored "probability of detection"
is not count(forecast_event)/11: the slice `columns[5:16]` starts at
the `observed event` column and omits the last ensemble-member column,
so a row with observed event True and no member signalling gets 1/11
(claimed 0), and a row whose only signalling member is the last column
gets 0 (claimed 1/11). -/
theorem pod_slice_includes_observed_column :
    podCode true (List.replicate 11 false) = 1 / 11 ∧
    specProbabilityOfDetection (List.replicate 11 false) = 0 ∧
    podCode false (List.replicate 10 false ++ [true]) = 0 ∧
    specProbabilityOfDetection (List.replicate 10 false ++ [true]) = 1 / 11 := by
  refine ⟨?_, ?_, ?_, ?_⟩ <;>
    norm_num [podCode, specProbabilityOfDetection, ensembleColumnsSlice, boolToRat,
      List.replicate, List.countP_cons]

/-- C5 counterexample: when no row of the observed series matches the
forecasted date, the resolver does not skip — the `.iloc[-1]` lookup
raises IndexError (here: one observed row at date 0, forecasted
date 1). -/
theorem missing_date_raises :
    resolveEvents [((0 : ℤ), some (1 : ℚ))] 1 1 1 [1] = Except.error "IndexError" := rfl

/-- C5 (amended): a missing observation is skipped only when the
forecasted date is present in the observed series and the station's
value there is NaN — then no event records are produced and no error
is raised; when no observed row matches the date, the lookup instead
propagates IndexError. -/
theorem observed_lookup_semantics (rows : List ObsRow) (d : ℤ) (ot st : ℚ) (fs : List ℚ) :
    (observedPeriod rows d = Except.error "IndexError" →
      resolveEvents rows d ot st fs = Except.error "IndexError") ∧
    (∀ d0 : ℤ, observedPeriod rows d = Except.ok (d0, none) →
      resolveEvents rows d ot st fs = Except.ok []) := by
  constructor
  · intro h; simp [resolveEvents, h]
  · intro d0 h; simp [resolveEvents, h]

/-- C5 witness: the amended semantics at concrete inputs — an empty
observed table raises IndexError, and a matching date with NaN value
skips with no event records. -/
theorem observed_lookup_semantics_witness :
    resolveEvents ([] : List ObsRow) 0 1 1 [] = Except.error "IndexError" ∧
    resolveEvents [((5 : ℤ), (none : Option ℚ))] 5 1 1 [1] = Except.ok [] :=
  ⟨(observed_lookup_semantics [] 0 1 1 []).1 rfl,
   (observed_lookup_semantics [((5 : ℤ), none)] 5 1 1 [1]).2 5 rfl⟩

/-- C7: for any group and any scanned column whose cells are 0/1
integers (as every trigger-threshold column is), the four contingency
counts partition the group: hits + false alarms + misses + correct
rejections equals the number of rows. -/
theorem contingency_counts_partition (rows : GroupRows) (hbit : ∀ r ∈ rows, r.2.isBit = true) :
    hits rows + falseAlarms rows + misses rows + correctRejections rows = rows.length := by
  induction rows with
  | nil => rfl
  | cons r rs ih =>
    have hr := hbit r (List.mem_cons_self r rs)
    have ih' := ih (fun x hx => hbit x (List.mem_cons_of_mem r hx))
    obtain ⟨b, c⟩ := r
    cases c with
    | text s => simp [Cell.isBit] at hr
    | bit v =>
      cases b <;> cases v <;>
        simp only [hits, falseAlarms, misses, correctRejections, List.countP_cons,
          Cell.eqNat, List.length_cons] at ih' ⊢ <;>
        simp <;> omega

/-- C7 witness: the partition at a concrete three-row group with 0/1
cells. -/
theorem contingency_counts_partition_witness :
    hits brows + falseAlarms brows + misses brows + correctRejections brows = brows.length :=
  contingency_counts_partition brows (by decide)

/-- C6: every zero-denominator case of the derived scores resolves to
0 — hit rate, false-alarm rate, precision, csi, pss and f1 — and in
particular a group with zero observed positive events gets hit rate 0
and pss 0. -/
theorem zero_denominators_resolve_to_zero (h fa m cr : ℕ) (rows : GroupRows) :
    (h + m = 0 → hitRate h m = 0) ∧
    (h + fa = 0 → falseAlarmRate h fa = 0 ∧ precision h fa = 0) ∧
    (h + fa + m = 0 → csi h fa m = 0) ∧
    ((h + m) * (fa + cr) = 0 → pss h fa m cr = 0) ∧
    (precision h fa + hitRate h m = 0 → f1 h fa m = 0) ∧
    (rows.countP (fun r => r.1) = 0 →
      hitRate (hits rows) (misses rows) = 0 ∧
      pss (hits rows) (falseAlarms rows) (misses rows) (correctRejections rows) = 0) := by
  refine ⟨?_, ?_, ?_, ?_, ?_, ?_⟩
  · intro h0; simp [hitRate, h0]
  · intro h0; constructor <;> simp [falseAlarmRate, precision, h0]
  · intro h0; simp [csi, h0]
  · intro h0; simp [pss, h0]
  · intro h0; simp only [f1]; rw [if_neg]; rw [h0]; exact lt_irrefl 0
  · intro h0
    have hh : hits rows = 0 := by
      have hle : hits rows ≤ rows.countP (fun r => r.1) :=
        List.countP_mono_left (fun a _ ha => by rw [Bool.and_eq_true] at ha; exact ha.1)
      omega
    have hm : misses rows = 0 := by
      have hle : misses rows ≤ rows.countP (fun r => r.1) :=
        List.countP_mono_left (fun a _ ha => by rw [Bool.and_eq_true] at ha; exact ha.1)
      omega
    exact ⟨by simp [hitRate, hh, hm], by simp [pss, hh, hm]⟩

/-- C6 witness: the zero-denominator cases at concrete counts and at a
concrete group with no observed positive event. -/
theorem zero_denominators_resolve_to_zero_witness :
    hitRate 0 0 = 0 ∧ (falseAlarmRate 0 0 = 0 ∧ precision 0 0 = 0) ∧ csi 0 0 0 = 0 ∧
    pss 0 0 0 0 = 0 ∧ f1 0 0 0 = 0 ∧
    (hitRate (hits zrows) (misses zrows) = 0 ∧
      pss (hits zrows) (falseAlarms zrows) (misses zrows) (correctRejections zrows) = 0) :=
  ⟨(zero_denominators_resolve_to_zero 0 0 0 0 zrows).1 rfl,
   (zero_denominators_resolve_to_zero 0 0 0 0 zrows).2.1 rfl,
   (zero_denominators_resolve_to_zero 0 0 0 0 zrows).2.2.1 rfl,
   (zero_denominators_resolve_to_zero 0 0 0 0 zrows).2.2.2.1 rfl,
   (zero_denominators_resolve_to_zero 0 0 0 0 zrows).2.2.2.2.1 (by simp [precision, hitRate]),
   (zero_denominators_resolve_to_zero 0 0 0 0 zrows).2.2.2.2.2 (by rfl)⟩

/-- C2: for columns listed in ascending threshold order, any selected
best trigger is feasible (hit rate at least 1/2 and false-alarm rate
at most 1/2), csi-maximal among all feasible columns, and among
csi-ties it has the smallest threshold. -/
theorem best_trigger_selection (cols : List MetricsCol)
    (hsort : cols.Pairwise (fun a b => a.thr < b.thr)) (c : MetricsCol)
    (hc : bestTrigger cols = some c) :
    (c ∈ cols ∧ feasibleB c = true) ∧
    (∀ x ∈ cols, feasibleB x = true → x.csiVal ≤ c.csiVal) ∧
    (∀ x ∈ cols, feasibleB x = true → x.csiVal = c.csiVal → c.thr ≤ x.thr) := by
  have hmemf : c ∈ cols.filter feasibleB := idxmaxCsi_mem hc
  have hcmem : c ∈ cols := List.mem_of_mem_filter hmemf
  have hcfeas : feasibleB c = true := List.of_mem_filter hmemf
  refine ⟨⟨hcmem, hcfeas⟩, ?_, ?_⟩
  · intro x hx hxf
    exact idxmaxCsi_le hc x (List.mem_filter.mpr ⟨hx, hxf⟩)
  · intro x hx hxf hxe
    obtain ⟨l1, l2, heq, hless⟩ := idxmaxCsi_first hc
    have hxmemf : x ∈ cols.filter feasibleB := List.mem_filter.mpr ⟨hx, hxf⟩
    rw [heq] at hxmemf
    have hpair : (l1 ++ c :: l2).Pairwise (fun a b => a.thr < b.thr) := by
      rw [← heq]; exact hsort.sublist (List.filter_sublist cols)
    rcases List.mem_append.mp hxmemf with hx1 | hx2
    · exact absurd hxe (by exact ne_of_lt (hless x hx1))
    · rcases List.mem_cons.mp hx2 with rfl | hx3
      · exact le_refl _
      · have := (List.pairwise_append.mp hpair).2.1
        exact le_of_lt ((List.pairwise_cons.mp this).1 x hx3)

/-- C2 witness: on three concrete columns in ascending threshold order
— one infeasible, two feasible and csi-tied — the selected trigger is
the tied column with the smaller threshold, and the selection facts
hold at it. -/
theorem best_trigger_selection_witness :
    (wcolB ∈ [wcolA, wcolB, wcolC] ∧ feasibleB wcolB = true) ∧
    (∀ x ∈ [wcolA, wcolB, wcolC], feasibleB x = true → x.csiVal ≤ wcolB.csiVal) ∧
    (∀ x ∈ [wcolA, wcolB, wcolC], feasibleB x = true → x.csiVal = wcolB.csiVal → wcolB.thr ≤ x.thr) := by
  have hA : feasibleB wcolA = false := by norm_num [feasibleB, wcolA]
  have hB : feasibleB wcolB = true := by norm_num [feasibleB, wcolB]
  have hC : feasibleB wcolC = true := by norm_num [feasibleB, wcolC]
  refine best_trigger_selection [wcolA, wcolB, wcolC] ?_ wcolB ?_
  · norm_num [List.pairwise_cons, wcolA, wcolB, wcolC]
  · have hfil : List.filter feasibleB [wcolA, wcolB, wcolC] = [wcolB, wcolC] := by
      simp [List.filter_cons, hA, hB, hC]
    rw [bestTrigger, hfil]
    norm_num [idxmaxCsi, wcolB, wcolC]

/-- C3: when no column of a group passes the feasibility mask, the
selected trigger is the explicit `None`, and the group still
contributes a row (key, None) to the final results list. -/
theorem no_feasible_trigger_none_row (groups : List (GroupKey × List MetricsCol))
    (k : GroupKey) (cols : List MetricsCol)
    (hmem : (k, cols) ∈ groups) (hinf : ∀ x ∈ cols, feasibleB x = false) :
    bestTrigger cols = none ∧ (k, (none : Option MetricsCol)) ∈ resultsList groups := by
  have hfil : cols.filter feasibleB = [] :=
    List.filter_eq_nil_iff.mpr (fun a ha => by simp [hinf a ha])
  have hnone : bestTrigger cols = none := by simp [bestTrigger, hfil, idxmaxCsi]
  exact ⟨hnone, List.mem_map.mpr ⟨(k, cols), hmem, by simp [hnone]⟩⟩

/-- C3 witness: a concrete single-group table whose only column is
infeasible yields the explicit `None` selection and still appears in
the results list. -/
theorem no_feasible_trigger_none_row_witness :
    bestTrigger [wcolA] = none ∧
    ((("stn", "0-5", "moderate") : GroupKey), (none : Option MetricsCol)) ∈
      resultsList [((("stn", "0-5", "moderate") : GroupKey), [wcolA])] := by
  refine no_feasible_trigger_none_row _ _ _ ?_ ?_
  · simp
  · intro x hx
    simp at hx
    subst hx
    norm_num [feasibleB, wcolA]

/-- C10: the trailing `lead time category` column, whose cells are
categorical strings, always receives hit rate 0 in `calculate_metrics`
and therefore can never pass the feasibility mask: any selected best
trigger over the threshold columns plus that trailing column comes
from the threshold columns. -/
theorem category_column_not_selectable (rows : GroupRows)
    (htext : ∀ r ∈ rows, r.2.isText = true)
    (tcols : List MetricsCol) (nm : String) (th : ℚ) (c : MetricsCol)
    (hsel : bestTrigger (tcols ++ [colMetricsOf nm th rows]) = some c) :
    (colMetricsOf nm th rows).hr = 0 ∧ c ∈ tcols := by
  have h0 : hits rows = 0 := by
    apply List.countP_eq_zero.mpr
    intro r hr
    have := htext r hr
    cases hcell : r.2 with
    | bit b => rw [hcell] at this; simp [Cell.isText] at this
    | text s => simp [hcell, Cell.eqNat]
  have m0 : misses rows = 0 := by
    apply List.countP_eq_zero.mpr
    intro r hr
    have := htext r hr
    cases hcell : r.2 with
    | bit b => rw [hcell] at this; simp [Cell.isText] at this
    | text s => simp [hcell, Cell.eqNat]
  have hhr : (colMetricsOf nm th rows).hr = 0 := by
    simp [colMetricsOf, hitRate, h0, m0]
  have hfeas : feasibleB (colMetricsOf nm th rows) = false := by
    simp [feasibleB, hhr]
  have hfil : (tcols ++ [colMetricsOf nm th rows]).filter feasibleB = tcols.filter feasibleB := by
    rw [List.filter_append]
    simp [hfeas]
  rw [bestTrigger, hfil] at hsel
  exact ⟨hhr, List.mem_of_mem_filter (idxmaxCsi_mem hsel)⟩

/-- C10 witness: with a concrete string-valued trailing column and one
feasible threshold column, the selected trigger is the threshold
column and the trailing column's hit rate is 0. -/
theorem category_column_not_selectable_witness :
    (colMetricsOf "lead time category" 0 wrows).hr = 0 ∧ wcolB ∈ [wcolB] := by
  have hcat : feasibleB (colMetricsOf "lead time category" 0 wrows) = false := by
    norm_num [feasibleB, colMetricsOf, hitRate, hits, misses, falseAlarms, wrows,
      List.countP_cons, Cell.eqNat]
  refine category_column_not_selectable wrows ?_ [wcolB] "lead time category" 0 wcolB ?_
  · intro r hr
    simp [wrows] at hr
    rcases hr with h1 | h1 <;> simp [h1, Cell.isText]
  · have hB : feasibleB wcolB = true := by norm_num [feasibleB, wcolB]
    simp [bestTrigger, List.filter_cons, List.filter_append, hB, hcat, idxmaxCsi]

end FloodAA
